import Mathlib

/-!
# vwifi: a virtual cfg80211 driver (`vwifi.c`)

A shallow embedding of the scan / connect / disconnect engine of `vwifi.c`.

* Device state (`struct owl_context`) is a record; the character array
  `connecting_ssid[sizeof(SSID_DUMMY)]` is a function on `Fin 11`.
* A store through `connecting_ssid` with an index past the array does not
  change the array; it falls on the bytes behind it in `struct owl_context`
  (padding and `disconnect_reason_code`).
* Every call that leaves the driver (mutex, workqueue, cfg80211, sleeping) is
  appended to a trace, in program order.
* What the environment answers (the return value of
  `mutex_lock_interruptible`, of `schedule_work`, of the allocation and
  registration calls) is an argument of the embedded function.
-/

namespace Vwifi

/-! ## Constants -/

/-- The macro `#define SSID_DUMMY "MyHomeWiFi"`: the bytes of the literal, without its terminator. -/
def SSID_DUMMY : List Nat :=
  ['M', 'y', 'H', 'o', 'm', 'e', 'W', 'i', 'F', 'i'].map Char.toNat

/-- The macro `#define SSID_DUMMY_SIZE (sizeof(SSID_DUMMY) - 1)`. -/
def SSID_DUMMY_SIZE : Nat := SSID_DUMMY.length

/-- The value of `sizeof(SSID_DUMMY)`: the literal with its terminating zero byte. -/
def sizeof_SSID_DUMMY : Nat := SSID_DUMMY.length + 1

/-- The object a `char *` to the literal `SSID_DUMMY` points at: its bytes and the terminator. -/
def SSID_DUMMY_object : List Nat := SSID_DUMMY ++ [0]

/-- Linux `ERESTARTSYS`. -/
def ERESTARTSYS : Int := 512

/-- Linux `EBUSY`. -/
def EBUSY : Int := 16

/-- Linux `EINTR`, what `mutex_lock_interruptible` returns (negated) when a signal arrives. -/
def EINTR : Int := 4

/-- The constant `WLAN_EID_SSID` of `linux/ieee80211.h`. -/
def WLAN_EID_SSID : Nat := 0

/-- The constant `WLAN_CAPABILITY_ESS` of `linux/ieee80211.h`. -/
def WLAN_CAPABILITY_ESS : Nat := 1

/-- The constant `WLAN_STATUS_SUCCESS` of `linux/ieee80211.h`. -/
def WLAN_STATUS_SUCCESS : Nat := 0

/-- The kernel `enum nl80211_timeout_reason`. -/
inductive nl80211_timeout_reason where
  | NL80211_TIMEOUT_UNSPECIFIED
  | NL80211_TIMEOUT_SCAN
  | NL80211_TIMEOUT_AUTH
  | NL80211_TIMEOUT_ASSOC
  deriving DecidableEq, Repr

/-- The three `work_struct` members of `struct owl_context`. -/
inductive work_struct where
  | ws_connect
  | ws_disconnect
  | ws_scan
  deriving DecidableEq, Repr

/-- One entry of `owl_supported_channels_2ghz`. -/
structure ieee80211_channel where
  hw_value : Nat
  center_freq : Nat
  deriving DecidableEq, Repr

/-- The table `owl_supported_channels_2ghz`: the only channel, channel 6. -/
def owl_supported_channels_2ghz : List ieee80211_channel :=
  [{ hw_value := 6, center_freq := 2437 }]

/-- The arguments `inform_dummy_bss` passes to `cfg80211_inform_bss_data`. -/
structure bss_record where
  chan : Option ieee80211_channel
  signal : Int
  bssid : List Nat
  tsf : Nat
  capability : Nat
  beacon_interval : Nat
  ie : List Nat
  deriving DecidableEq, Repr

/-! ## Calls that leave the driver -/

/-- A call made by the driver, with the arguments that vary. -/
inductive Call where
  | msleep (msecs : Nat)
  | mutex_lock_interruptible
  | mutex_unlock
  | schedule_work (w : work_struct)
  | cfg80211_inform_bss_data (data : bss_record)
  | cfg80211_put_bss
  | cfg80211_scan_done (request : Nat) (aborted : Bool)
  | cfg80211_connect_timeout (timeout_reason : nl80211_timeout_reason)
  | cfg80211_connect_bss (status : Nat) (timeout_reason : nl80211_timeout_reason)
  | cfg80211_disconnected (reason : Nat) (locally_generated : Bool)
  deriving DecidableEq, Repr

/-- Calls into the host stack (cfg80211): announcements of a network record and completion signals. -/
def Call.is_host_call : Call → Bool
  | .cfg80211_inform_bss_data _ => true
  | .cfg80211_put_bss => true
  | .cfg80211_scan_done _ _ => true
  | .cfg80211_connect_timeout _ => true
  | .cfg80211_connect_bss _ _ => true
  | .cfg80211_disconnected _ _ => true
  | _ => false

/-- Announcements of a network record to the host stack. -/
def Call.is_announcement : Call → Bool
  | .cfg80211_inform_bss_data _ => true
  | _ => false

/-! ## Device state -/

/-- The data fields of `struct owl_context`.  A pointer is a number, `NULL` is 0. -/
structure owl_context where
  connecting_ssid : Fin sizeof_SSID_DUMMY → Nat
  disconnect_reason_code : Nat
  scan_request : Nat

/-- What a run of a driver function leaves behind: its return value, the
device state and the calls it made, oldest first. -/
structure Run (α : Type) where
  ret : α
  owl : owl_context
  trace : List Call

/-! ## Byte operations -/

/-- A byte store `a[i] = v` into a character array of `n` bytes.  A store whose
index is not below `n` does not land in the array and leaves it as it is. -/
def array_store {n : Nat} (a : Fin n → Nat) (i v : Nat) : Fin n → Nat :=
  fun j => if j.val = i then v else a j

/-- The byte stores `memcpy(dst, src, len)` performs, as (index into `dst`, byte), in order. -/
def memcpy_stores (src : List Nat) (len : Nat) : List (Nat × Nat) :=
  (List.range len).map fun i => (i, src.getD i 0)

/-- Perform a sequence of byte stores on an array. -/
def apply_stores {n : Nat} (a : Fin n → Nat) (ws : List (Nat × Nat)) : Fin n → Nat :=
  ws.foldl (fun acc w => array_store acc w.1 w.2) a

/-- The call `memcmp(s1, s2, n)`: the difference of the first pair of bytes that differ
among the first `n`, or 0. -/
def memcmp : List Nat → List Nat → Nat → Int
  | a :: s1, b :: s2, n + 1 => if a = b then memcmp s1 s2 n else (a : Int) - (b : Int)
  | _, _, _ => 0

/-! ## The driver -/

/-- The calls of `inform_dummy_bss`: announce the fabricated network record and drop the reference. -/
def inform_dummy_bss : List Call :=
  let bssid : List Nat := [0xaa, 0xbb, 0xcc, 0xdd, 0xee, 0xff]
  let ie : List Nat := [WLAN_EID_SSID, SSID_DUMMY_SIZE] ++ SSID_DUMMY
  [ Call.cfg80211_inform_bss_data
      { chan := owl_supported_channels_2ghz.head?, signal := 1337, bssid := bssid, tsf := 0,
        capability := WLAN_CAPABILITY_ESS, beacon_interval := 100, ie := ie },
    Call.cfg80211_put_bss ]

/-- The handler `owl_scan_routine`; `lock_ret` is what `mutex_lock_interruptible` returns. -/
def owl_scan_routine (lock_ret : Int) (owl : owl_context) : Run Unit :=
  let t := [Call.msleep 100] ++ inform_dummy_bss ++ [Call.mutex_lock_interruptible]
  if lock_ret ≠ 0 then
    { ret := (), owl := owl, trace := t }
  else
    { ret := (),
      owl := { owl with scan_request := 0 },
      trace := t ++ [Call.cfg80211_scan_done owl.scan_request false, Call.mutex_unlock] }

/-- The handler `owl_connect_routine`; `lock_ret` is what `mutex_lock_interruptible` returns. -/
def owl_connect_routine (lock_ret : Int) (owl : owl_context) : Run Unit :=
  if lock_ret ≠ 0 then
    { ret := (), owl := owl, trace := [Call.mutex_lock_interruptible] }
  else
    let signal :=
      if memcmp (List.ofFn owl.connecting_ssid) SSID_DUMMY_object sizeof_SSID_DUMMY ≠ 0 then
        [Call.cfg80211_connect_timeout nl80211_timeout_reason.NL80211_TIMEOUT_SCAN]
      else
        inform_dummy_bss ++
          [Call.cfg80211_connect_bss WLAN_STATUS_SUCCESS
            nl80211_timeout_reason.NL80211_TIMEOUT_UNSPECIFIED]
    { ret := (),
      owl := { owl with connecting_ssid := array_store owl.connecting_ssid 0 0 },
      trace := [Call.mutex_lock_interruptible] ++ signal ++ [Call.mutex_unlock] }

/-- The handler `owl_disconnect_routine`; `lock_ret` is what `mutex_lock_interruptible` returns. -/
def owl_disconnect_routine (lock_ret : Int) (owl : owl_context) : Run Unit :=
  if lock_ret ≠ 0 then
    { ret := (), owl := owl, trace := [Call.mutex_lock_interruptible] }
  else
    { ret := (),
      owl := { owl with disconnect_reason_code := 0 },
      trace := [Call.mutex_lock_interruptible,
                Call.cfg80211_disconnected owl.disconnect_reason_code true,
                Call.mutex_unlock] }

/-- The entry point `owl_scan`; `lock_ret` is what `mutex_lock_interruptible` returns and
`queued` what `schedule_work` returns. -/
def owl_scan (lock_ret : Int) (queued : Bool) (owl : owl_context) (request : Nat) : Run Int :=
  if lock_ret ≠ 0 then
    { ret := -ERESTARTSYS, owl := owl, trace := [Call.mutex_lock_interruptible] }
  else if owl.scan_request ≠ 0 then
    { ret := -EBUSY, owl := owl, trace := [Call.mutex_lock_interruptible, Call.mutex_unlock] }
  else
    { ret := if !queued then -EBUSY else 0,
      owl := { owl with scan_request := request },
      trace := [Call.mutex_lock_interruptible, Call.mutex_unlock,
                Call.schedule_work work_struct.ws_scan] }

/-- The fields of `struct cfg80211_connect_params` that `owl_connect` reads. -/
structure cfg80211_connect_params where
  ssid : List Nat
  ssid_len : Nat

/-- The connect parameters the host passes for a network name: its bytes and their number. -/
def connect_params (name : List Nat) : cfg80211_connect_params :=
  { ssid := name, ssid_len := name.length }

/-- The byte stores `owl_connect` performs on `connecting_ssid` once it holds
the lock, as (index, byte): the `memcpy`, then the terminator. -/
def owl_connect_stores (sme : cfg80211_connect_params) : List (Nat × Nat) :=
  let ssid_len := if sme.ssid_len > 15 then 15 else sme.ssid_len
  memcpy_stores sme.ssid ssid_len ++ [(ssid_len, 0)]

/-- Replace one byte of a 16-bit value: byte 0 is the low byte, byte 1 the high byte. -/
def u16_set_byte (x k v : Nat) : Nat :=
  if k = 0 then (x / 256 % 256) * 256 + v % 256 else (v % 256) * 256 + x % 256

/-- What byte stores addressed through `connecting_ssid` do to
`disconnect_reason_code`, the member declared right behind the array.  The
array has 11 bytes and starts at an even offset, so one padding byte (index 11)
precedes the `u16`, whose two bytes are reached as indices 12 (low byte) and 13
(high byte) on a little-endian machine; indices 14 and 15 are padding in front
of `ws_scan`.  Stores at other indices leave the field as it is. -/
def spill_into_reason_code (code : Nat) (ws : List (Nat × Nat)) : Nat :=
  ws.foldl
    (fun c w =>
      if w.1 = sizeof_SSID_DUMMY + 1 then u16_set_byte c 0 w.2
      else if w.1 = sizeof_SSID_DUMMY + 2 then u16_set_byte c 1 w.2
      else c)
    code

/-- The entry point `owl_connect`; `lock_ret` is what `mutex_lock_interruptible` returns and
`queued` what `schedule_work` returns.  Its stores with an index inside
`connecting_ssid` change the array; those behind the array fall on padding and
on `disconnect_reason_code`. -/
def owl_connect (lock_ret : Int) (queued : Bool) (owl : owl_context)
    (sme : cfg80211_connect_params) : Run Int :=
  if lock_ret ≠ 0 then
    { ret := -ERESTARTSYS, owl := owl, trace := [Call.mutex_lock_interruptible] }
  else
    { ret := if !queued then -EBUSY else 0,
      owl := { owl with
        connecting_ssid := apply_stores owl.connecting_ssid (owl_connect_stores sme),
        disconnect_reason_code :=
          spill_into_reason_code owl.disconnect_reason_code (owl_connect_stores sme) },
      trace := [Call.mutex_lock_interruptible, Call.mutex_unlock,
                Call.schedule_work work_struct.ws_connect] }

/-- The entry point `owl_disconnect`; `lock_ret` is what `mutex_lock_interruptible` returns and
`queued` what `schedule_work` returns. -/
def owl_disconnect (lock_ret : Int) (queued : Bool) (owl : owl_context)
    (reason_code : Nat) : Run Int :=
  if lock_ret ≠ 0 then
    { ret := -ERESTARTSYS, owl := owl, trace := [Call.mutex_lock_interruptible] }
  else
    { ret := if !queued then -EBUSY else 0,
      owl := { owl with disconnect_reason_code := reason_code },
      trace := [Call.mutex_lock_interruptible, Call.mutex_unlock,
                Call.schedule_work work_struct.ws_disconnect] }

/-- A device state with every byte and field zero. -/
def zero_context : owl_context :=
  { connecting_ssid := fun _ => 0, disconnect_reason_code := 0, scan_request := 0 }

/-- A device state in which the scan with handle 7 is outstanding. -/
def scanning_context : owl_context :=
  { zero_context with scan_request := 7 }


/-! ## Startup -/

/-- A step of module startup: a call into the kernel or a store to a field of the device state. -/
inductive InitStep where
  | kmalloc
  | wiphy_new_nm
  | wiphy_register
  | alloc_netdev
  | register_netdev
  | free_netdev
  | wiphy_unregister
  | wiphy_free
  | kfree
  | mutex_init
  | INIT_WORK (w : work_struct)
  | store_connecting_ssid (index value : Nat)
  | store_disconnect_reason_code (value : Nat)
  | store_scan_request (value : Nat)
  deriving DecidableEq, Repr

/-- What the kernel answers during startup.  `memory` is the content of the
block `kmalloc` hands out, which `kmalloc` does not clear. -/
structure init_env where
  kmalloc_ok : Bool
  memory : owl_context
  wiphy_new_ok : Bool
  wiphy_register_ret : Int
  alloc_netdev_ok : Bool
  register_netdev_ret : Int

/-- The function `owl_create_context`: the context it returns (`none` for `NULL`) and the steps taken. -/
def owl_create_context (env : init_env) : Option owl_context × List InitStep :=
  if !env.kmalloc_ok then
    (none, [.kmalloc])
  else if !env.wiphy_new_ok then
    (none, [.kmalloc, .wiphy_new_nm, .kfree])
  else if env.wiphy_register_ret < 0 then
    (none, [.kmalloc, .wiphy_new_nm, .wiphy_register, .wiphy_free, .kfree])
  else if !env.alloc_netdev_ok then
    (none, [.kmalloc, .wiphy_new_nm, .wiphy_register, .alloc_netdev,
            .wiphy_unregister, .wiphy_free, .kfree])
  else if env.register_netdev_ret ≠ 0 then
    (none, [.kmalloc, .wiphy_new_nm, .wiphy_register, .alloc_netdev, .register_netdev,
            .free_netdev, .wiphy_unregister, .wiphy_free, .kfree])
  else
    (some env.memory,
      [.kmalloc, .wiphy_new_nm, .wiphy_register, .alloc_netdev, .register_netdev])

/-- The field stores of `vwifi_init` on the context `owl_create_context` returned. -/
def vwifi_init_fields (ctx : owl_context) : owl_context :=
  { connecting_ssid := array_store ctx.connecting_ssid 0 0,
    disconnect_reason_code := 0,
    scan_request := 0 }

/-- What a run of `vwifi_init` leaves behind. -/
structure InitRun where
  ret : Int
  g_ctx : Option owl_context
  trace : List InitStep

/-- The module entry `vwifi_init`: `owl_create_context`, then the lock, the work items and the fields. -/
def vwifi_init (env : init_env) : InitRun :=
  match owl_create_context env with
  | (none, t) => { ret := 1, g_ctx := none, trace := t }
  | (some ctx, t) =>
    { ret := 0,
      g_ctx := some (vwifi_init_fields ctx),
      trace := t ++
        [ .mutex_init,
          .INIT_WORK work_struct.ws_connect, .store_connecting_ssid 0 0,
          .INIT_WORK work_struct.ws_disconnect, .store_disconnect_reason_code 0,
          .INIT_WORK work_struct.ws_scan, .store_scan_request 0 ] }

/-- Startup answers under which every allocation and registration succeeds. -/
def success_env : init_env :=
  { kmalloc_ok := true, memory := zero_context, wiphy_new_ok := true,
    wiphy_register_ret := 0, alloc_netdev_ok := true, register_netdev_ret := 0 }

/-! ## Traces of the connect handler -/

/-- The calls of a run of `owl_connect_routine` that takes the match branch. -/
def connect_success_trace : List Call :=
  [Call.mutex_lock_interruptible] ++ inform_dummy_bss ++
    [Call.cfg80211_connect_bss WLAN_STATUS_SUCCESS
       nl80211_timeout_reason.NL80211_TIMEOUT_UNSPECIFIED,
     Call.mutex_unlock]

/-- The calls of a run of `owl_connect_routine` that takes the mismatch branch. -/
def connect_timeout_trace : List Call :=
  [Call.mutex_lock_interruptible,
   Call.cfg80211_connect_timeout nl80211_timeout_reason.NL80211_TIMEOUT_SCAN,
   Call.mutex_unlock]

/-! ## Byte-level lemmas -/

theorem sizeof_SSID_DUMMY_eq : sizeof_SSID_DUMMY = 11 := by decide

theorem SSID_DUMMY_eq : SSID_DUMMY = [77, 121, 72, 111, 109, 101, 87, 105, 70, 105] := by decide

theorem SSID_DUMMY_object_eq :
    SSID_DUMMY_object = [77, 121, 72, 111, 109, 101, 87, 105, 70, 105, 0] := by decide

/-- The calls of `inform_dummy_bss`, written out: one `cfg80211_inform_bss_data`
with channel 6 (2437 MHz), signal 1337, BSSID aa:bb:cc:dd:ee:ff, capability
ESS, beacon interval 100 and the one information element SSID (id 0, length
10, the bytes of `MyHomeWiFi`), then `cfg80211_put_bss`. -/
theorem inform_dummy_bss_eq :
    inform_dummy_bss =
      [Call.cfg80211_inform_bss_data
         { chan := some { hw_value := 6, center_freq := 2437 }, signal := 1337,
           bssid := [0xaa, 0xbb, 0xcc, 0xdd, 0xee, 0xff], tsf := 0, capability := 1,
           beacon_interval := 100,
           ie := [0, 10, 77, 121, 72, 111, 109, 101, 87, 105, 70, 105] },
       Call.cfg80211_put_bss] := by
  decide

theorem memcmp_eq_zero_iff (n : Nat) :
    ∀ s1 s2 : List Nat, n ≤ s1.length → n ≤ s2.length →
      (memcmp s1 s2 n = 0 ↔ s1.take n = s2.take n) := by
  induction n with
  | zero => intro s1 s2 _ _; cases s1 <;> cases s2 <;> simp [memcmp]
  | succ n ih =>
    intro s1 s2 h1 h2
    cases s1 with
    | nil => simp at h1
    | cons a s1 =>
      cases s2 with
      | nil => simp at h2
      | cons b s2 =>
        simp only [List.length_cons, Nat.add_le_add_iff_right] at h1 h2
        by_cases hab : a = b
        · subst hab
          simp [memcmp, ih s1 s2 h1 h2]
        · have hne : (a : Int) - (b : Int) ≠ 0 := by omega
          simp [memcmp, hab, hne]

theorem apply_stores_snoc {n : Nat} (a : Fin n → Nat) (ws : List (Nat × Nat)) (i v : Nat) :
    apply_stores a (ws ++ [(i, v)]) = array_store (apply_stores a ws) i v := by
  simp [apply_stores, List.foldl_append]

theorem apply_memcpy_stores {n : Nat} (a : Fin n → Nat) (src : List Nat) (len : Nat)
    (j : Fin n) :
    apply_stores a (memcpy_stores src len) j = if j.val < len then src.getD j.val 0 else a j := by
  induction len with
  | zero => simp [memcpy_stores, apply_stores]
  | succ len ih =>
    have hs : memcpy_stores src (len + 1) = memcpy_stores src len ++ [(len, src.getD len 0)] := by
      simp [memcpy_stores, List.range_succ]
    rw [hs, apply_stores_snoc, array_store, ih]
    by_cases h1 : j.val = len
    · simp [h1]
    · by_cases h2 : j.val < len
      · have : j.val < len + 1 := by omega
        simp [h1, h2, this]
      · have : ¬ j.val < len + 1 := by omega
        simp [h1, h2, this]

theorem connect_buffer_get (a : Fin sizeof_SSID_DUMMY → Nat) (name : List Nat)
    (j : Fin sizeof_SSID_DUMMY) :
    apply_stores a (owl_connect_stores (connect_params name)) j =
      if j.val = min name.length 15 then 0
      else if j.val < min name.length 15 then name.getD j.val 0 else a j := by
  have hk : (if name.length > 15 then 15 else name.length) = min name.length 15 := by
    split <;> omega
  simp only [owl_connect_stores, connect_params, hk]
  rw [apply_stores_snoc, array_store, apply_memcpy_stores]

theorem ofFn_eq_iff {n : Nat} (f : Fin n → Nat) (l : List Nat) (hl : l.length = n) :
    List.ofFn f = l ↔ ∀ j : Fin n, f j = l.getD j.val 0 := by
  constructor
  · intro h j
    subst h
    have hj : j.val < (List.ofFn f).length := by simp
    rw [List.getD_eq_getElem _ _ hj]
    simp
  · intro h
    apply List.ext_getElem
    · simp [hl]
    · intro i h1 h2
      have hi : i < n := by simpa using h1
      rw [List.getElem_ofFn, h ⟨i, hi⟩, List.getD_eq_getElem _ _ h2]

theorem ssid_match_iff (a : Fin sizeof_SSID_DUMMY → Nat) (name : List Nat) :
    memcmp (List.ofFn (apply_stores a (owl_connect_stores (connect_params name))))
        SSID_DUMMY_object sizeof_SSID_DUMMY = 0 ↔
      (name = SSID_DUMMY ∨ name.take sizeof_SSID_DUMMY = SSID_DUMMY_object) := by
  have hobj : SSID_DUMMY_object.length = sizeof_SSID_DUMMY := by decide
  rw [memcmp_eq_zero_iff _ _ _ (le_of_eq (List.length_ofFn _).symm) (le_of_eq hobj.symm)]
  rw [List.take_of_length_le (le_of_eq (List.length_ofFn _)),
    List.take_of_length_le (le_of_eq hobj)]
  rw [ofFn_eq_iff _ _ hobj]
  simp only [connect_buffer_get]
  have h11 := sizeof_SSID_DUMMY_eq
  have hnz : ∀ i, i < 10 → SSID_DUMMY_object.getD i 0 ≠ 0 := by
    intro i hi
    interval_cases i <;> decide
  have hpre : ∀ i, i < 10 → SSID_DUMMY_object.getD i 0 = SSID_DUMMY.getD i 0 := by
    intro i hi
    interval_cases i <;> decide
  constructor
  · intro H
    rcases Nat.lt_trichotomy name.length 10 with hlt | heq | hgt
    · exfalso
      have h := H ⟨name.length, by omega⟩
      have hm : min name.length 15 = name.length := by omega
      simp only [hm, if_true] at h
      exact hnz _ hlt h.symm
    · left
      have hm : min name.length 15 = 10 := by omega
      apply List.ext_getElem
      · rw [heq]; decide
      · intro i h1 h2
        have hi : i < 10 := by omega
        have h := H ⟨i, by omega⟩
        simp only [hm, if_neg (Nat.ne_of_lt hi), if_pos hi] at h
        rw [hpre i hi, List.getD_eq_getElem _ _ h1, List.getD_eq_getElem _ _ h2] at h
        exact h
    · right
      apply List.ext_getElem
      · rw [List.length_take, hobj, h11]; omega
      · intro i h1 h2
        have hi : i < 11 := by
          rw [hobj, h11] at h2; exact h2
        have hin : i < name.length := by omega
        have hm : i < min name.length 15 := by omega
        have h := H ⟨i, by omega⟩
        simp only [if_neg (Nat.ne_of_lt hm), if_pos hm] at h
        rw [List.getD_eq_getElem _ _ hin, List.getD_eq_getElem _ _ h2] at h
        rw [List.getElem_take]
        exact h
  · intro H j
    have hj : j.val < 11 := by have := j.isLt; omega
    rcases H with H | H
    · subst H
      have hm : min SSID_DUMMY.length 15 = 10 := by decide
      rw [hm]
      by_cases h10 : j.val = 10
      · rw [if_pos h10, h10]; decide
      · have hlt : j.val < 10 := by omega
        rw [if_neg h10, if_pos hlt, hpre _ hlt]
    · have hlen : 11 ≤ name.length := by
        have h := congrArg List.length H
        rw [List.length_take, hobj, h11] at h
        omega
      have hm : j.val < min name.length 15 := by omega
      rw [if_neg (Nat.ne_of_lt hm), if_pos hm, ← H]
      have h1 : j.val < name.length := by omega
      have h2 : j.val < (List.take sizeof_SSID_DUMMY name).length := by
        have h := congrArg List.length H
        rw [hobj] at h
        omega
      rw [List.getD_eq_getElem _ _ h1, List.getD_eq_getElem _ _ h2, List.getElem_take]

/-- The calls of the connect handler, run with the lock after `owl_connect`
stored `name`, depend on `name` alone. -/
theorem connect_routine_trace (queued : Bool) (owl : owl_context) (name : List Nat) :
    (owl_connect_routine 0 (owl_connect 0 queued owl (connect_params name)).owl).trace =
      if name = SSID_DUMMY ∨ name.take sizeof_SSID_DUMMY = SSID_DUMMY_object then
        connect_success_trace
      else connect_timeout_trace := by
  have h := ssid_match_iff owl.connecting_ssid name
  by_cases hacc : name = SSID_DUMMY ∨ name.take sizeof_SSID_DUMMY = SSID_DUMMY_object
  · rw [if_pos hacc]
    have hz := h.mpr hacc
    simp only [owl_connect_routine, owl_connect, ne_eq, not_true_eq_false, if_false, hz,
      connect_success_trace, List.append_assoc, List.singleton_append]
    simp
  · rw [if_neg hacc]
    have hz : ¬ _ := fun e => hacc (h.mp e)
    simp only [owl_connect_routine, owl_connect, ne_eq, not_true_eq_false, if_false, hz,
      not_false_eq_true, if_true, connect_timeout_trace, List.append_assoc,
      List.singleton_append]
    simp

/-! ## Scan -/

/-- C1. At most one outstanding scan: in every device state whose `scan_request`
is set, `owl_scan` run with the lock returns `-EBUSY` (so not 0), leaves the
state, and with it the recorded request, as it was, and makes no
`schedule_work` call: its calls are the lock and the unlock. -/
theorem owl_scan_busy_when_pending (queued : Bool) (owl : owl_context) (request : Nat)
    (h : owl.scan_request ≠ 0) :
    (owl_scan 0 queued owl request).ret = -EBUSY ∧
    (owl_scan 0 queued owl request).ret ≠ 0 ∧
    (owl_scan 0 queued owl request).owl = owl ∧
    (owl_scan 0 queued owl request).trace =
      [Call.mutex_lock_interruptible, Call.mutex_unlock] ∧
    ∀ w, Call.schedule_work w ∉ (owl_scan 0 queued owl request).trace := by
  simp [owl_scan, h, EBUSY]

theorem owl_scan_busy_when_pending_witness :
    scanning_context.scan_request ≠ 0 ∧
    (owl_scan 0 true scanning_context 9).ret = -EBUSY ∧
    (owl_scan 0 true scanning_context 9).ret ≠ 0 ∧
    (owl_scan 0 true scanning_context 9).owl = scanning_context ∧
    (owl_scan 0 true scanning_context 9).trace =
      [Call.mutex_lock_interruptible, Call.mutex_unlock] ∧
    ∀ w, Call.schedule_work w ∉ (owl_scan 0 true scanning_context 9).trace :=
  ⟨by decide, owl_scan_busy_when_pending true scanning_context 9 (by decide)⟩

/-- Two scan requests in a row, the first on a state without an outstanding
scan: the first records its request, the second is refused with `-EBUSY` and
the first request stays recorded. -/
theorem owl_scan_twice (q1 q2 : Bool) (owl : owl_context) (first second : Nat)
    (h0 : owl.scan_request = 0) (h1 : first ≠ 0) :
    (owl_scan 0 q1 owl first).ret = (if q1 then 0 else -EBUSY) ∧
    (owl_scan 0 q1 owl first).owl.scan_request = first ∧
    (owl_scan 0 q2 (owl_scan 0 q1 owl first).owl second).ret = -EBUSY ∧
    (owl_scan 0 q2 (owl_scan 0 q1 owl first).owl second).owl.scan_request = first := by
  cases q1 <;> simp [owl_scan, h0, h1]

/-- C5. In every device state, `owl_scan_routine` run with the lock makes these
calls in this order: the 100 ms sleep, the announcement of the fabricated
network record (`cfg80211_inform_bss_data` with BSSID aa:bb:cc:dd:ee:ff, channel
6, signal 1337 and the SSID element `MyHomeWiFi`, then `cfg80211_put_bss`), the
lock, one `cfg80211_scan_done` carrying the recorded `scan_request` with
`aborted = false`, the unlock.  There is exactly one announcement.  Afterwards
`scan_request` is `NULL` and the other fields are as before. -/
theorem owl_scan_routine_completes (owl : owl_context) :
    (owl_scan_routine 0 owl).trace =
      [Call.msleep 100,
       Call.cfg80211_inform_bss_data
         { chan := some { hw_value := 6, center_freq := 2437 }, signal := 1337,
           bssid := [0xaa, 0xbb, 0xcc, 0xdd, 0xee, 0xff], tsf := 0, capability := 1,
           beacon_interval := 100,
           ie := [0, 10, 77, 121, 72, 111, 109, 101, 87, 105, 70, 105] },
       Call.cfg80211_put_bss,
       Call.mutex_lock_interruptible,
       Call.cfg80211_scan_done owl.scan_request false,
       Call.mutex_unlock] ∧
    ((owl_scan_routine 0 owl).trace.filter Call.is_announcement).length = 1 ∧
    (owl_scan_routine 0 owl).owl.scan_request = 0 ∧
    (owl_scan_routine 0 owl).owl.connecting_ssid = owl.connecting_ssid ∧
    (owl_scan_routine 0 owl).owl.disconnect_reason_code = owl.disconnect_reason_code := by
  have hrec : inform_dummy_bss =
      [Call.cfg80211_inform_bss_data
         { chan := some { hw_value := 6, center_freq := 2437 }, signal := 1337,
           bssid := [0xaa, 0xbb, 0xcc, 0xdd, 0xee, 0xff], tsf := 0, capability := 1,
           beacon_interval := 100,
           ie := [0, 10, 77, 121, 72, 111, 109, 101, 87, 105, 70, 105] },
       Call.cfg80211_put_bss] := by decide
  simp [owl_scan_routine, hrec, Call.is_announcement]

/-! ## Connect -/

/-- C2. In every device state, `owl_connect` with the name `MyHomeWiFi` and its
length 10, run with the lock, makes no call to the host, and
`owl_connect_routine` run with the lock after it makes these calls in this
order: the lock, the announcement of the fabricated network record
(`cfg80211_inform_bss_data` with BSSID aa:bb:cc:dd:ee:ff, channel 6, signal 1337
and the SSID element `MyHomeWiFi`, then `cfg80211_put_bss`),
`cfg80211_connect_bss` with `WLAN_STATUS_SUCCESS`, the unlock.  There is exactly
one announcement and no `cfg80211_connect_timeout`. -/
theorem connect_dummy_ssid_succeeds (queued : Bool) (owl : owl_context) :
    (connect_params SSID_DUMMY).ssid_len = 10 ∧
    (owl_connect 0 queued owl (connect_params SSID_DUMMY)).trace.filter Call.is_host_call = [] ∧
    (owl_connect_routine 0 (owl_connect 0 queued owl (connect_params SSID_DUMMY)).owl).trace =
      [Call.mutex_lock_interruptible,
       Call.cfg80211_inform_bss_data
         { chan := some { hw_value := 6, center_freq := 2437 }, signal := 1337,
           bssid := [0xaa, 0xbb, 0xcc, 0xdd, 0xee, 0xff], tsf := 0, capability := 1,
           beacon_interval := 100,
           ie := [0, 10, 77, 121, 72, 111, 109, 101, 87, 105, 70, 105] },
       Call.cfg80211_put_bss,
       Call.cfg80211_connect_bss WLAN_STATUS_SUCCESS
         nl80211_timeout_reason.NL80211_TIMEOUT_UNSPECIFIED,
       Call.mutex_unlock] ∧
    (owl_connect_routine 0
        (owl_connect 0 queued owl (connect_params SSID_DUMMY)).owl).trace.filter
          Call.is_host_call =
      [Call.cfg80211_inform_bss_data
         { chan := some { hw_value := 6, center_freq := 2437 }, signal := 1337,
           bssid := [0xaa, 0xbb, 0xcc, 0xdd, 0xee, 0xff], tsf := 0, capability := 1,
           beacon_interval := 100,
           ie := [0, 10, 77, 121, 72, 111, 109, 101, 87, 105, 70, 105] },
       Call.cfg80211_put_bss,
       Call.cfg80211_connect_bss WLAN_STATUS_SUCCESS
         nl80211_timeout_reason.NL80211_TIMEOUT_UNSPECIFIED] ∧
    ((owl_connect_routine 0
        (owl_connect 0 queued owl (connect_params SSID_DUMMY)).owl).trace.filter
          Call.is_announcement).length = 1 ∧
    ∀ r, Call.cfg80211_connect_timeout r ∉
      (owl_connect_routine 0 (owl_connect 0 queued owl (connect_params SSID_DUMMY)).owl).trace := by
  have h := connect_routine_trace queued owl SSID_DUMMY
  rw [if_pos (Or.inl rfl)] at h
  rw [h]
  refine ⟨by decide, ?_, by decide, by decide, by decide, ?_⟩
  · simp [owl_connect, Call.is_host_call]
  · intro r
    simp [connect_success_trace, inform_dummy_bss]

/-- C3. The 11-byte name `MyHomeWiFi` followed by a zero byte is not
`MyHomeWiFi`, yet in every device state `owl_connect` with it, followed by
`owl_connect_routine`, both run with the lock, announces the fabricated network
record and signals `cfg80211_connect_bss` with `WLAN_STATUS_SUCCESS`. -/
theorem connect_nul_suffixed_ssid_succeeds (queued : Bool) (owl : owl_context) :
    SSID_DUMMY ++ [0] ≠ SSID_DUMMY ∧
    (connect_params (SSID_DUMMY ++ [0])).ssid_len = 11 ∧
    (owl_connect_routine 0
        (owl_connect 0 queued owl (connect_params (SSID_DUMMY ++ [0]))).owl).trace =
      [Call.mutex_lock_interruptible] ++ inform_dummy_bss ++
        [Call.cfg80211_connect_bss WLAN_STATUS_SUCCESS
           nl80211_timeout_reason.NL80211_TIMEOUT_UNSPECIFIED,
         Call.mutex_unlock] := by
  have h := connect_routine_trace queued owl (SSID_DUMMY ++ [0])
  rw [if_pos (Or.inr (by decide))] at h
  rw [h]
  exact ⟨by decide, by decide, rfl⟩

/-- Every name that is neither `MyHomeWiFi` nor begins with `MyHomeWiFi` and a
zero byte is refused with `cfg80211_connect_timeout`, without an announcement. -/
theorem connect_other_ssid_times_out (queued : Bool) (owl : owl_context) (name : List Nat)
    (h1 : name ≠ SSID_DUMMY) (h2 : name.take sizeof_SSID_DUMMY ≠ SSID_DUMMY_object) :
    (owl_connect_routine 0 (owl_connect 0 queued owl (connect_params name)).owl).trace =
      [Call.mutex_lock_interruptible,
       Call.cfg80211_connect_timeout nl80211_timeout_reason.NL80211_TIMEOUT_SCAN,
       Call.mutex_unlock] := by
  have h := connect_routine_trace queued owl name
  rw [if_neg (by rintro (h | h); exacts [h1 h, h2 h])] at h
  rw [h]
  rfl

/-- The stores of `owl_connect` for a name of length `n`: its first `min n 15`
bytes at indices `0 .. min n 15 - 1`, then a zero byte at index `min n 15`. -/
theorem owl_connect_stores_eq (name : List Nat) :
    owl_connect_stores (connect_params name) =
      (List.range (min name.length 15)).map (fun i => (i, name.getD i 0)) ++
        [(min name.length 15, 0)] := by
  have hk : (if name.length > 15 then 15 else name.length) = min name.length 15 := by
    split <;> omega
  simp only [owl_connect_stores, connect_params, hk, memcpy_stores]

/-- Every store of `owl_connect` lands in the 11 bytes of `connecting_ssid`
exactly when the name has at most 10 bytes. -/
theorem owl_connect_stores_in_array_iff (name : List Nat) :
    (∀ w ∈ owl_connect_stores (connect_params name), w.1 < sizeof_SSID_DUMMY) ↔
      name.length < sizeof_SSID_DUMMY := by
  rw [owl_connect_stores_eq, sizeof_SSID_DUMMY_eq]
  constructor
  · intro h
    have := h (min name.length 15, 0) (by simp)
    simp only at this
    omega
  · intro h w hw
    simp only [List.mem_append, List.mem_map, List.mem_range, List.mem_singleton] at hw
    rcases hw with ⟨i, hi, rfl⟩ | rfl
    · simp only
      omega
    · simp only
      omega

/-- A name of at most 10 bytes leaves `disconnect_reason_code` as it was. -/
theorem owl_connect_short_keeps_reason_code (queued : Bool) (owl : owl_context)
    (name : List Nat) (h : name.length < sizeof_SSID_DUMMY) :
    (owl_connect 0 queued owl (connect_params name)).owl.disconnect_reason_code =
      owl.disconnect_reason_code := by
  have hin := (owl_connect_stores_in_array_iff name).mpr h
  have key : ∀ (ws : List (Nat × Nat)) (c : Nat), (∀ w ∈ ws, w.1 < sizeof_SSID_DUMMY) →
      spill_into_reason_code c ws = c := by
    intro ws
    induction ws with
    | nil => intro c _; rfl
    | cons w ws ih =>
      intro c hw
      have h1 : w.1 < sizeof_SSID_DUMMY := hw w (List.mem_cons_self _ _)
      have h2 : ∀ x ∈ ws, x.1 < sizeof_SSID_DUMMY :=
        fun x hx => hw x (List.mem_cons_of_mem _ hx)
      have e1 : ¬ w.1 = sizeof_SSID_DUMMY + 1 := by omega
      have e2 : ¬ w.1 = sizeof_SSID_DUMMY + 2 := by omega
      have := ih c h2
      simp only [spill_into_reason_code, List.foldl_cons, if_neg e1, if_neg e2] at this ⊢
      exact this
  simp only [owl_connect, ne_eq, not_true_eq_false, if_false]
  exact key _ _ hin

/-- A name of 14 bytes overwrites `disconnect_reason_code`: after
`owl_disconnect` recorded reason 3, `owl_connect` with the bytes 1 to 14 leaves
the code 13 + 256 * 14 = 3597. -/
theorem owl_connect_long_overwrites_reason_code :
    (owl_connect 0 true (owl_disconnect 0 true zero_context 3).owl
        (connect_params [1, 2, 3, 4, 5, 6, 7, 8, 9, 10, 11, 12, 13, 14])).owl.disconnect_reason_code
      = 3597 := by
  decide

/-- C7. `connecting_ssid` has `sizeof(SSID_DUMMY)` = 11 bytes, indices 0 to 10.
For the 11-byte name `MyHomeWiFiX`, `owl_connect` stores the 11 bytes at indices
0 to 10 and the terminator at index 11, which is not an index of the array. -/
theorem owl_connect_stores_past_array :
    sizeof_SSID_DUMMY = 11 ∧
    owl_connect_stores (connect_params (SSID_DUMMY ++ ['X'.toNat])) =
      [(0, 77), (1, 121), (2, 72), (3, 111), (4, 109), (5, 101), (6, 87), (7, 105),
       (8, 70), (9, 105), (10, 88), (11, 0)] ∧
    ¬ ∀ w ∈ owl_connect_stores (connect_params (SSID_DUMMY ++ ['X'.toNat])),
        w.1 < sizeof_SSID_DUMMY := by
  decide

/-- C10. Last writer wins: for all names `a` and `b` and every prior device state,
after `owl_connect` with `a` and then `owl_connect` with `b`, both run with the
lock, the calls of `owl_connect_routine` are those it makes after `owl_connect`
with `b` alone on the state `vwifi_init` sets up, whatever the allocated memory
held.  Bytes left in `connecting_ssid` by `a` or by earlier names have no
influence. -/
theorem connect_last_writer_wins (a b : List Nat) (owl memory : owl_context)
    (q1 q2 q3 : Bool) :
    (owl_connect_routine 0
        (owl_connect 0 q2 (owl_connect 0 q1 owl (connect_params a)).owl
          (connect_params b)).owl).trace =
      (owl_connect_routine 0
        (owl_connect 0 q3 (vwifi_init_fields memory) (connect_params b)).owl).trace := by
  rw [connect_routine_trace, connect_routine_trace]

/-! ## Disconnect -/

/-- C4. For every reason code `r` and every device state, `owl_disconnect` with
`r` followed by `owl_disconnect_routine`, both run with the lock, makes the
handler call the lock, `cfg80211_disconnected` once with reason `r`, and the
unlock; afterwards `disconnect_reason_code` is 0 and `connecting_ssid` and
`scan_request` are as before.  In every state the handler, run with the lock,
signals `cfg80211_disconnected` with the recorded code. -/
theorem disconnect_reports_reason (queued : Bool) (owl : owl_context) (r : Nat) :
    (owl_disconnect_routine 0 (owl_disconnect 0 queued owl r).owl).trace =
      [Call.mutex_lock_interruptible, Call.cfg80211_disconnected r true, Call.mutex_unlock] ∧
    (owl_disconnect_routine 0 (owl_disconnect 0 queued owl r).owl).owl.disconnect_reason_code
      = 0 ∧
    (owl_disconnect_routine 0 (owl_disconnect 0 queued owl r).owl).owl.connecting_ssid
      = owl.connecting_ssid ∧
    (owl_disconnect_routine 0 (owl_disconnect 0 queued owl r).owl).owl.scan_request
      = owl.scan_request ∧
    ∀ s : owl_context, (owl_disconnect_routine 0 s).trace =
      [Call.mutex_lock_interruptible,
       Call.cfg80211_disconnected s.disconnect_reason_code true,
       Call.mutex_unlock] := by
  simp [owl_disconnect_routine, owl_disconnect]

/-! ## Interrupted lock acquisition -/

/-- C6. When `mutex_lock_interruptible` is interrupted (returns nonzero), each of
`owl_scan`, `owl_connect` and `owl_disconnect`, in every device state and for
every argument, returns `-ERESTARTSYS`, leaves the device state as it was and
makes no call besides the lock attempt, so no `schedule_work`. -/
theorem entry_points_interrupted (lock_ret : Int) (h : lock_ret ≠ 0) (queued : Bool)
    (owl : owl_context) (request : Nat) (sme : cfg80211_connect_params) (reason_code : Nat) :
    ((owl_scan lock_ret queued owl request).ret = -ERESTARTSYS ∧
      (owl_scan lock_ret queued owl request).owl = owl ∧
      (owl_scan lock_ret queued owl request).trace = [Call.mutex_lock_interruptible]) ∧
    ((owl_connect lock_ret queued owl sme).ret = -ERESTARTSYS ∧
      (owl_connect lock_ret queued owl sme).owl = owl ∧
      (owl_connect lock_ret queued owl sme).trace = [Call.mutex_lock_interruptible]) ∧
    ((owl_disconnect lock_ret queued owl reason_code).ret = -ERESTARTSYS ∧
      (owl_disconnect lock_ret queued owl reason_code).owl = owl ∧
      (owl_disconnect lock_ret queued owl reason_code).trace =
        [Call.mutex_lock_interruptible]) := by
  simp [owl_scan, owl_connect, owl_disconnect, h]

theorem entry_points_interrupted_witness :
    -EINTR ≠ 0 ∧
    ((owl_scan (-EINTR) true zero_context 9).ret = -ERESTARTSYS ∧
      (owl_scan (-EINTR) true zero_context 9).owl = zero_context ∧
      (owl_scan (-EINTR) true zero_context 9).trace = [Call.mutex_lock_interruptible]) ∧
    ((owl_connect (-EINTR) true zero_context (connect_params SSID_DUMMY)).ret = -ERESTARTSYS ∧
      (owl_connect (-EINTR) true zero_context (connect_params SSID_DUMMY)).owl = zero_context ∧
      (owl_connect (-EINTR) true zero_context (connect_params SSID_DUMMY)).trace =
        [Call.mutex_lock_interruptible]) ∧
    ((owl_disconnect (-EINTR) true zero_context 3).ret = -ERESTARTSYS ∧
      (owl_disconnect (-EINTR) true zero_context 3).owl = zero_context ∧
      (owl_disconnect (-EINTR) true zero_context 3).trace =
        [Call.mutex_lock_interruptible]) :=
  ⟨by decide,
   entry_points_interrupted (-EINTR) (by decide) true zero_context 9
     (connect_params SSID_DUMMY) 3⟩

/-- C9. On every successful run of `vwifi_init` the steps are, in order: the
allocations and the two registrations of `owl_create_context`
(`wiphy_register`, `register_netdev`), and only then `mutex_init` and the
stores that zero `connecting_ssid[0]`, `disconnect_reason_code` and
`scan_request`.  The device is registered before its lock and fields are set
up. -/
theorem vwifi_init_registers_before_setup (env : init_env) (h : (vwifi_init env).ret = 0) :
    (vwifi_init env).trace =
      [InitStep.kmalloc, InitStep.wiphy_new_nm, InitStep.wiphy_register,
       InitStep.alloc_netdev, InitStep.register_netdev,
       InitStep.mutex_init,
       InitStep.INIT_WORK work_struct.ws_connect, InitStep.store_connecting_ssid 0 0,
       InitStep.INIT_WORK work_struct.ws_disconnect, InitStep.store_disconnect_reason_code 0,
       InitStep.INIT_WORK work_struct.ws_scan, InitStep.store_scan_request 0] := by
  unfold vwifi_init owl_create_context at *
  split_ifs at * <;> simp_all

theorem vwifi_init_registers_before_setup_witness :
    (vwifi_init success_env).ret = 0 ∧
    (vwifi_init success_env).trace =
      [InitStep.kmalloc, InitStep.wiphy_new_nm, InitStep.wiphy_register,
       InitStep.alloc_netdev, InitStep.register_netdev,
       InitStep.mutex_init,
       InitStep.INIT_WORK work_struct.ws_connect, InitStep.store_connecting_ssid 0 0,
       InitStep.INIT_WORK work_struct.ws_disconnect, InitStep.store_disconnect_reason_code 0,
       InitStep.INIT_WORK work_struct.ws_scan, InitStep.store_scan_request 0] :=
  ⟨by decide, vwifi_init_registers_before_setup success_env (by decide)⟩

end Vwifi
